import Mathlib

/-
Verification of the TextpressoTemplateGenerator query reformatter
(src/query_reformatting.py).

The embedding models:
  * Python JSON values (`JValue`), with dicts as insertion-ordered
    association lists without duplicate keys, as produced by `json.loads`.
    JSON number literals that Python would load as `int` are represented
    by `JValue.num`; literals Python would load as `float` (fraction,
    exponent, NaN, Infinity) are represented structurally by their lexeme
    (`JValue.floatLit`), since IEEE floating point is outside the model.
  * `json.loads` (`json_loads`): a recursive-descent parser following the
    grammar accepted by the Python `json` module with `strict=True`
    (whitespace = space/TAB/LF/CR; strings with the standard escapes and
    `\uXXXX`, rejecting raw control characters; numbers per the module
    regular expression; `true`/`false`/`null` and the constants
    `NaN`/`Infinity`/`-Infinity`; trailing data after the top value is an
    error; duplicate object keys keep the first position and last value).
  * the OpenAI chat-completion call, abstracted as an `endpoint` function
    from the api key and the constructed request to either a response
    content string or an error; the request itself (`mkChatRequest`) is
    built exactly as in the source (fixed system prompt, user text,
    model "gpt-4o-mini", temperature 0, JSON-object response format).
  * Python runtime failures as `PyError`: an exception from the client
    call, `json.JSONDecodeError` from `json.loads`, and the `TypeError`
    raised by item assignment (`output_json["token"] = ...`) when the
    parsed value is not a dict.
  * the Streamlit button handler (`generate_json_handler`), including its
    `user_query.strip() and openai_token.strip()` guard and its
    four-positional-argument call of `make_json_query`.
-/

inductive JValue where
  | null : JValue
  | bool : Bool → JValue
  | num : Int → JValue
  | floatLit : String → JValue
  | str : String → JValue
  | arr : List JValue → JValue
  | obj : List (String × JValue) → JValue

/-- Python dict lookup `d[k]` (as an `Option`): dicts from `json.loads`
have no duplicate keys, so the first match is the only one. -/
def lookup : List (String × JValue) → String → Option JValue
  | [], _ => none
  | (k1, v1) :: rest, k => if k1 = k then some v1 else lookup rest k

/-- Python dict assignment `d[k] = v`: replace in place if the key is
present, otherwise append at the end (insertion order). -/
def setKey : List (String × JValue) → String → JValue → List (String × JValue)
  | [], k, v => [(k, v)]
  | (k1, v1) :: rest, k, v =>
    if k1 = k then (k, v) :: rest else (k1, v1) :: setKey rest k v

/-- JSON whitespace accepted between tokens by the Python json module. -/
def isJsonWS (c : Char) : Bool :=
  c = ' ' || c = '\t' || c = '\n' || c = '\r'

def skipWS : List Char → List Char
  | [] => []
  | c :: cs => if isJsonWS c then skipWS cs else c :: cs

def hexVal (c : Char) : Option Nat :=
  if '0' ≤ c ∧ c ≤ '9' then some (c.toNat - '0'.toNat)
  else if 'a' ≤ c ∧ c ≤ 'f' then some (c.toNat - 'a'.toNat + 10)
  else if 'A' ≤ c ∧ c ≤ 'F' then some (c.toNat - 'A'.toNat + 10)
  else none

/-- Body of a JSON string after the opening quote, with the escapes the
Python json module accepts in strict mode; raw control characters below
0x20 are rejected. Surrogate pairs in `\uXXXX` escapes are combined; a
lone surrogate (kept verbatim by Python) is approximated by
`Char.ofNat`. -/
def parseStringBody : Nat → List Char → List Char → Option (String × List Char)
  | 0, _, _ => none
  | fuel + 1, acc, cs =>
  match cs with
  | [] => none
  | '"' :: rest => some (String.mk acc.reverse, rest)
  | '\\' :: rest =>
    match rest with
    | '"' :: r => parseStringBody fuel ( '"' :: acc) r
    | '\\' :: r => parseStringBody fuel ( '\\' :: acc) r
    | '/' :: r => parseStringBody fuel ( '/' :: acc) r
    | 'b' :: r => parseStringBody fuel ( '\x08' :: acc) r
    | 'f' :: r => parseStringBody fuel ( '\x0c' :: acc) r
    | 'n' :: r => parseStringBody fuel ( '\n' :: acc) r
    | 'r' :: r => parseStringBody fuel ( '\r' :: acc) r
    | 't' :: r => parseStringBody fuel ( '\t' :: acc) r
    | 'u' :: a :: b :: c :: d :: r =>
      match hexVal a, hexVal b, hexVal c, hexVal d with
      | some ha, some hb, some hc, some hd =>
        let n := ((ha * 16 + hb) * 16 + hc) * 16 + hd
        if 0xD800 ≤ n ∧ n ≤ 0xDBFF then
          match r with
          | '\\' :: 'u' :: a2 :: b2 :: c2 :: d2 :: r2 =>
            match hexVal a2, hexVal b2, hexVal c2, hexVal d2 with
            | some ha2, some hb2, some hc2, some hd2 =>
              let n2 := ((ha2 * 16 + hb2) * 16 + hc2) * 16 + hd2
              if 0xDC00 ≤ n2 ∧ n2 ≤ 0xDFFF then
                parseStringBody fuel
                  (Char.ofNat (0x10000 + (n - 0xD800) * 0x400 + (n2 - 0xDC00)) :: acc) r2
              else
                parseStringBody fuel (Char.ofNat n :: acc)
                  ( '\\' :: 'u' :: a2 :: b2 :: c2 :: d2 :: r2)
            | _, _, _, _ =>
              parseStringBody fuel (Char.ofNat n :: acc)
                ( '\\' :: 'u' :: a2 :: b2 :: c2 :: d2 :: r2)
          | other => parseStringBody fuel (Char.ofNat n :: acc) other
        else parseStringBody fuel (Char.ofNat n :: acc) r
      | _, _, _, _ => none
    | _ => none
  | c :: rest =>
    if c.toNat < 0x20 then none else parseStringBody fuel (c :: acc) rest

def takeDigits : List Char → (List Char × List Char)
  | [] => ([], [])
  | c :: cs =>
    if c.isDigit then
      let (ds, rest) := takeDigits cs
      (c :: ds, rest)
    else ([], c :: cs)

def digitsToNat (ds : List Char) : Nat :=
  ds.foldl (fun acc c => acc * 10 + (c.toNat - '0'.toNat)) 0

def intToVal (neg : Bool) (ds : List Char) : Int :=
  if neg then - (digitsToNat ds : Int) else (digitsToNat ds : Int)

/-- Rebuild a float literal lexeme (used only as a structural stand-in for
the Python `float` value, which is outside the model). -/
def mkFloat (neg : Bool) (ip fds : List Char) (ex : Option (Bool × List Char)) : JValue :=
  JValue.floatLit (String.mk
    ((if neg then ['-'] else []) ++ ip ++
      (if fds.isEmpty then [] else '.' :: fds) ++
      (match ex with
       | none => []
       | some (sgn, ds) => 'e' :: ((if sgn then ['-'] else []) ++ ds))))

/-- Optional exponent part `[eE][+-]?digits` of a JSON number. Returns
`none` on a dangling exponent marker; the Python regular expression would
instead stop the number before the marker, after which every context
rejects the leftover letter, so the accepted strings coincide. -/
def expPart : List Char → Option (Option (Bool × List Char) × List Char)
  | 'e' :: r => expDigitsPart r
  | 'E' :: r => expDigitsPart r
  | cs => some (none, cs)
where
  expDigitsPart (r : List Char) : Option (Option (Bool × List Char) × List Char) :=
    let (sgn, r1) :=
      match r with
      | '+' :: rr => (false, rr)
      | '-' :: rr => (true, rr)
      | _ => (false, r)
    let (ds, r2) := takeDigits r1
    if ds.isEmpty then none else some (some (sgn, ds), r2)

/-- Fraction and exponent of a number whose integer digits are known. -/
def numTail (neg : Bool) (intDigits : List Char) (cs : List Char) :
    Option (JValue × List Char) :=
  match cs with
  | '.' :: r =>
    let (fds, r2) := takeDigits r
    if fds.isEmpty then none
    else
      match expPart r2 with
      | none => none
      | some (ex, r3) => some (mkFloat neg intDigits fds ex, r3)
  | _ =>
    match expPart cs with
    | none => none
    | some (none, r3) => some (JValue.num (intToVal neg intDigits), r3)
    | some (some e, r3) => some (mkFloat neg intDigits [] (some e), r3)

/-- JSON number per the Python json module: `-?(0|[1-9][0-9]*)` with
optional fraction and exponent; an integer lexeme loads as `int`, any
other as `float`. -/
def parseNumber (cs : List Char) : Option (JValue × List Char) :=
  let (neg, cs1) :=
    match cs with
    | '-' :: r => (true, r)
    | _ => (false, cs)
  match cs1 with
  | [] => none
  | c :: rest =>
    if c = '0' then numTail neg ['0'] rest
    else if c.isDigit then
      let (ds, after) := takeDigits rest
      numTail neg (c :: ds) after
    else none

mutual

/-- One JSON value, preceded by optional whitespace. Fuel bounds the
nesting; `json_loads` supplies more than enough for its input. -/
def parseValue : Nat → List Char → Option (JValue × List Char)
  | 0, _ => none
  | fuel + 1, cs =>
    match skipWS cs with
    | '\x7b' :: rest =>
      match skipWS rest with
      | '\x7d' :: r => some (JValue.obj [], r)
      | cs2 => parseMembers fuel [] cs2
    | '[' :: rest =>
      match skipWS rest with
      | ']' :: r => some (JValue.arr [], r)
      | cs2 => parseElems fuel [] cs2
    | '"' :: rest =>
      match parseStringBody (rest.length + 1) [] rest with
      | none => none
      | some (s, r) => some (JValue.str s, r)
    | 't' :: 'r' :: 'u' :: 'e' :: rest => some (JValue.bool true, rest)
    | 'f' :: 'a' :: 'l' :: 's' :: 'e' :: rest => some (JValue.bool false, rest)
    | 'n' :: 'u' :: 'l' :: 'l' :: rest => some (JValue.null, rest)
    | 'N' :: 'a' :: 'N' :: rest => some (JValue.floatLit "NaN", rest)
    | 'I' :: 'n' :: 'f' :: 'i' :: 'n' :: 'i' :: 't' :: 'y' :: rest =>
      some (JValue.floatLit "Infinity", rest)
    | '-' :: 'I' :: 'n' :: 'f' :: 'i' :: 'n' :: 'i' :: 't' :: 'y' :: rest =>
      some (JValue.floatLit "-Infinity", rest)
    | cs1 => parseNumber cs1

/-- Members of an object after `\x7b`, first key expected at `cs` (the
empty object was already handled). Duplicate keys behave like Python
`dict(pairs)`: first position, last value. -/
def parseMembers (fuel : Nat) (acc : List (String × JValue)) (cs : List Char) :
    Option (JValue × List Char) :=
  match fuel with
  | 0 => none
  | fuel + 1 =>
    match cs with
    | '"' :: rest =>
      match parseStringBody (rest.length + 1) [] rest with
      | none => none
      | some (key, r1) =>
        match skipWS r1 with
        | ':' :: r2 =>
          match parseValue fuel r2 with
          | none => none
          | some (v, r3) =>
            match skipWS r3 with
            | ',' :: r4 => parseMembers fuel (setKey acc key v) (skipWS r4)
            | '\x7d' :: r4 => some (JValue.obj (setKey acc key v), r4)
            | _ => none
        | _ => none
    | _ => none

/-- Elements of an array after `[`, first element expected at `cs` (the
empty array was already handled). -/
def parseElems (fuel : Nat) (acc : List JValue) (cs : List Char) :
    Option (JValue × List Char) :=
  match fuel with
  | 0 => none
  | fuel + 1 =>
    match parseValue fuel cs with
    | none => none
    | some (v, r1) =>
      match skipWS r1 with
      | ',' :: r2 => parseElems fuel (v :: acc) r2
      | ']' :: r2 => some (JValue.arr (v :: acc).reverse, r2)
      | _ => none

end

/-- `json.loads`: parse one JSON value and require only whitespace after
it ("Extra data" otherwise). `none` models `json.JSONDecodeError`. -/
def json_loads (s : String) : Option JValue :=
  match parseValue (2 * s.length + 8) s.data with
  | some (v, rest) => if (skipWS rest).isEmpty then some v else none
  | none => none

/-- Failure modes of one invocation, as Python exceptions:
`clientError` is any exception raised by the OpenAI client call
(transport, auth, rate limit); `jsonDecodeError` is
`json.JSONDecodeError` from `json.loads`; `typeErrorItemAssignment` is
the `TypeError` raised by `output_json["token"] = ...` when the parsed
value is not a dict. Nothing in the source catches any of them. -/
inductive PyError where
  | clientError : PyError
  | jsonDecodeError : PyError
  | typeErrorItemAssignment : PyError

structure Message where
  role : String
  content : String

/-- The argument of `client.chat.completions.create` in the source. -/
structure ChatRequest where
  model : String
  messages : List Message
  temperature : Nat
  response_format : String

/-- The system prompt string literal of `make_json_query`, transcribed
from the source (lines 10 to 60). -/
def system_prompt : String :=
"
    You are a query reformatter that is knowledgeable of plant genetics. You take user input in string format, and reformat the entry into a JSON object.
    The JSON object is used to query Textpresso, which contains a corpus of plant genetics papers that users can query for specific traits, genes, etc. 

    The users may ask about crop traits (plant height, tassel number), gene regulatory elements (methylation, chromatin accessibility), etc. 
    
    You\x27ll need to reformat their query, taking elements like keywords.  

    The contents of the JSON object are as follows: 
     token (string) : a valid access token to the Textpresso platform. 
     include_fulltext (boolean) : whether to return the fulltext and abstract of the documents. Default value is false.
     query (object) : the user query reformulated into a structured form. 
     include_all_sentences (boolean) : whether to return the text of all the sentences in the text. Default value is false. Restricted to specific tokens due to copyright.
     include_match_sentences (boolean) : whether to return the text of each matched sentence. Valid only for sentence searches. Default value is false
     since_num (int) : used for pagination. Skip the first results and return entries from the specified number. Note that the counter starts from 0 - i.e., the first document is number 0.
     count (int) : used for pagination. Return up to the specified number of results. Maximum value is 200

    In the query object, the following fields are possible. Note that the user may ask for multiple genes, traits, etc. so make sure to use AND and OR appropriately. 
    keywords (string) : (optional) the keywords to match in the text. Can contain logical operators AND and OR and grouping by round brackets
    exclude_keywords (string) : (optional) the keywords to exclude. Can contain logical operators AND and OR and grouping by round brackets
    year (string) : (optional) year of publication of the paper
    author (string) : (optional) the author(s) of the paper
    accession (string) : (optional) the accession of the paper
    journal (string) : (optional) the journal where the paper has been published
    paper_type (string) : (optional) the type of paper (e.g., research_article, review)
    exact_match_author (bool) : (optional) apply exact match on the author field
    exact_match_journal (bool) : (optional) apply exact match on the journal field
    categories_and_ed (bool) : (optional) use AND logical operator between the provided categories
    type (string) : the type of search to perform. Accepted values are: document to query the fulltext of documents and sentence to search in each sentence separately. Default value is document
    case_sensitive (boolean) : whether to perform a case sensitive search. Default value is false
    sort_by_year (boolean) : whether the results have to be sorted by publication date. Default value is false 

    Rules for keyword conversion:
      1. The species name (e.g., maize) should always be included with AND.
      2. All main concepts in the query should be connected with AND, unless the user explicitly mentions alternatives (like \"or\").
      3. Remove filler words (\"the\", \"of\", \"in\", etc.).
      4. Use parentheses to group related concepts for clarity.
      
    A valid output format is below: 
    \x7b
      \"token\": \"<ACCESS_TOKEN>\",
      \"query\": \x7b
          \"keywords\": \"<user query reformulated into structured form>\"
      \x7d,
      \"include_fulltext\": false,
      \"include_all_sentences\": false,
      \"include_match_sentences\": false,
      \"since_num\": 0,
      \"count\": 10
    \x7d
    "

/-- The chat-completion request built by `make_json_query` (source lines
65 to 73): a fixed system message, the raw user text, model
"gpt-4o-mini", temperature 0, and a JSON-object response constraint. -/
def mkChatRequest (user_query : String) : ChatRequest :=
  ChatRequest.mk "gpt-4o-mini"
    [Message.mk "system" system_prompt, Message.mk "user" user_query]
    0 "json_object"

/-- The five item assignments of source lines 78 to 82, in order. -/
def overlayFields (kvs : List (String × JValue))
    (tok fulltextVal allSentVal matchSentVal countVal : JValue) :
    List (String × JValue) :=
  setKey (setKey (setKey (setKey (setKey kvs
    "token" tok)
    "include_fulltext" fulltextVal)
    "include_all_sentences" allSentVal)
    "include_match_sentences" matchSentVal)
    "count" countVal

/-- `make_json_query` (source lines 6 to 84). The OpenAI client call is
abstracted as `endpoint`, a function from the api key and the constructed
request to the response content text or a raised exception; everything
after the call is the source code: `json.loads` on the content, then the
five item assignments, then return. A non-dict parse result makes the
first item assignment raise `TypeError`. The overlay parameters carry
`JValue` because Python is dynamically typed: the UI passes an `int`
where the signature suggests a `bool` (see `generate_json_handler`).
Their defaults are the defaults of the Python signature
(`False`, `False`, `False`, `10`). -/
def make_json_query (endpoint : String → ChatRequest → Except PyError String)
    (user_query textpresso_token openai_token : String)
    (include_fulltext : JValue := JValue.bool false)
    (include_all_sentences : JValue := JValue.bool false)
    (include_match_sentences : JValue := JValue.bool false)
    (count : JValue := JValue.num 10) : Except PyError JValue :=
  match endpoint openai_token (mkChatRequest user_query) with
  | Except.error e => Except.error e
  | Except.ok content =>
    match json_loads content with
    | none => Except.error PyError.jsonDecodeError
    | some (JValue.obj kvs) =>
      Except.ok (JValue.obj (overlayFields kvs (JValue.str textpresso_token)
        include_fulltext include_all_sentences include_match_sentences count))
    | some _ => Except.error PyError.typeErrorItemAssignment

/-- Whitespace stripped by Python `str.strip()` (ASCII part; the claims
involve only ASCII input). -/
def pyIsSpace (c : Char) : Bool :=
  c = ' ' || c = '\t' || c = '\n' || c = '\r' || c = '\x0b' || c = '\x0c'

/-- Python `s.strip()`. -/
def pyStrip (s : String) : String :=
  String.mk (((s.data.dropWhile pyIsSpace).reverse.dropWhile pyIsSpace).reverse)

/-- The Streamlit "Generate JSON" button handler (source lines 104 to
107), given the current widget values. The guard is
`user_query.strip() and openai_token.strip()` (a stripped string is
truthy iff nonempty); inside it the source calls
`make_json_query(user_query, textpresso_token, openai_token, count)`:
four positional arguments, so the numeric `count` widget value lands in
the `include_fulltext` parameter and every other parameter keeps its
default. The three checkbox values are read into `cbFulltext`,
`cbAllSentences`, `cbMatchSentences` but never forwarded. `none` models
the warning branch where `make_json_query` is not called. -/
def generate_json_handler (endpoint : String → ChatRequest → Except PyError String)
    (user_query textpresso_token openai_token : String)
    (cbFulltext cbAllSentences cbMatchSentences : Bool) (count : Int) :
    Option (Except PyError JValue) :=
  if pyStrip user_query ≠ "" ∧ pyStrip openai_token ≠ "" then
    some (make_json_query endpoint user_query textpresso_token openai_token
      (JValue.num count))
  else
    none

/-- The five keys overwritten by the overlay (spec glossary "overlay
fields"). -/
def overlayKeys : List String :=
  ["token", "include_fulltext", "include_all_sentences",
   "include_match_sentences", "count"]

def JValue.isObj : JValue → Bool
  | JValue.obj _ => true
  | _ => false

def charsLe : List Char → List Char → Bool
  | [], _ => true
  | _ :: _, [] => false
  | a :: as, b :: bs =>
    if a.toNat < b.toNat then true
    else if b.toNat < a.toNat then false
    else charsLe as bs

/-- Lexicographic key order used only to compare dicts up to insertion
order (Python `==` on dicts ignores order). -/
def keyLe (a b : String) : Bool := charsLe a.data b.data

/-- Insertion sort of dict entries by key. -/
def insertSortedKV (p : String × JValue) :
    List (String × JValue) → List (String × JValue)
  | [] => [p]
  | q :: qs => if keyLe p.1 q.1 then p :: q :: qs else q :: insertSortedKV p qs

def sortKVs : List (String × JValue) → List (String × JValue)
  | [] => []
  | p :: ps => insertSortedKV p (sortKVs ps)

theorem lookup_setKey_self (kvs : List (String × JValue)) (k : String) (v : JValue) :
    lookup (setKey kvs k v) k = some v := by
  induction kvs with
  | nil => simp [setKey, lookup]
  | cons p rest ih =>
    obtain ⟨k1, v1⟩ := p
    by_cases h : k1 = k
    · simp [setKey, lookup, h]
    · simp [setKey, lookup, h, ih]

theorem lookup_setKey_ne (kvs : List (String × JValue)) (k k2 : String) (v : JValue)
    (h : k ≠ k2) : lookup (setKey kvs k v) k2 = lookup kvs k2 := by
  induction kvs with
  | nil => simp [setKey, lookup, h]
  | cons p rest ih =>
    obtain ⟨k1, v1⟩ := p
    by_cases h1 : k1 = k
    · subst h1
      simp [setKey, lookup, h]
    · simp [setKey, lookup, h1, ih]

theorem lookup_overlay_token (kvs : List (String × JValue)) (t f a m c : JValue) :
    lookup (overlayFields kvs t f a m c) "token" = some t := by
  unfold overlayFields
  rw [lookup_setKey_ne _ _ _ _ (by decide), lookup_setKey_ne _ _ _ _ (by decide),
    lookup_setKey_ne _ _ _ _ (by decide), lookup_setKey_ne _ _ _ _ (by decide),
    lookup_setKey_self]

theorem lookup_overlay_fulltext (kvs : List (String × JValue)) (t f a m c : JValue) :
    lookup (overlayFields kvs t f a m c) "include_fulltext" = some f := by
  unfold overlayFields
  rw [lookup_setKey_ne _ _ _ _ (by decide), lookup_setKey_ne _ _ _ _ (by decide),
    lookup_setKey_ne _ _ _ _ (by decide), lookup_setKey_self]

theorem lookup_overlay_all_sentences (kvs : List (String × JValue)) (t f a m c : JValue) :
    lookup (overlayFields kvs t f a m c) "include_all_sentences" = some a := by
  unfold overlayFields
  rw [lookup_setKey_ne _ _ _ _ (by decide), lookup_setKey_ne _ _ _ _ (by decide),
    lookup_setKey_self]

theorem lookup_overlay_match_sentences (kvs : List (String × JValue)) (t f a m c : JValue) :
    lookup (overlayFields kvs t f a m c) "include_match_sentences" = some m := by
  unfold overlayFields
  rw [lookup_setKey_ne _ _ _ _ (by decide), lookup_setKey_self]

theorem lookup_overlay_count (kvs : List (String × JValue)) (t f a m c : JValue) :
    lookup (overlayFields kvs t f a m c) "count" = some c := by
  unfold overlayFields
  rw [lookup_setKey_self]

theorem lookup_overlay_other (kvs : List (String × JValue)) (t f a m c : JValue)
    (key : String) (h : key ∉ overlayKeys) :
    lookup (overlayFields kvs t f a m c) key = lookup kvs key := by
  simp [overlayKeys, not_or] at h
  obtain ⟨h1, h2, h3, h4, h5⟩ := h
  unfold overlayFields
  rw [lookup_setKey_ne _ _ _ _ (Ne.symm h5), lookup_setKey_ne _ _ _ _ (Ne.symm h4),
    lookup_setKey_ne _ _ _ _ (Ne.symm h3), lookup_setKey_ne _ _ _ _ (Ne.symm h2),
    lookup_setKey_ne _ _ _ _ (Ne.symm h1)]

/-- C1: for every call of `make_json_query` whose model response parses
to a JSON object, the five overlay fields of the returned envelope
(`token`, `include_fulltext`, `include_all_sentences`,
`include_match_sentences`, `count`) equal exactly the caller-supplied
arguments, whatever values (if any) the model emitted at those keys. -/
theorem overlay_fields_equal_arguments
    (endpoint : String → ChatRequest → Except PyError String)
    (uq tp oa s : String) (kvs : List (String × JValue)) (f a m c : JValue)
    (hep : endpoint oa (mkChatRequest uq) = Except.ok s)
    (hp : json_loads s = some (JValue.obj kvs)) :
    ∃ out, make_json_query endpoint uq tp oa f a m c = Except.ok (JValue.obj out) ∧
      lookup out "token" = some (JValue.str tp) ∧
      lookup out "include_fulltext" = some f ∧
      lookup out "include_all_sentences" = some a ∧
      lookup out "include_match_sentences" = some m ∧
      lookup out "count" = some c := by
  refine ⟨overlayFields kvs (JValue.str tp) f a m c, ?_,
    lookup_overlay_token kvs _ f a m c, lookup_overlay_fulltext kvs _ f a m c,
    lookup_overlay_all_sentences kvs _ f a m c,
    lookup_overlay_match_sentences kvs _ f a m c,
    lookup_overlay_count kvs _ f a m c⟩
  simp [make_json_query, hep, hp]

/-- C1 witness: the mocked model tries to set `token` and `count`
itself; the caller values win. -/
theorem overlay_fields_equal_arguments_witness :
    ∃ out, make_json_query
        (fun _ _ => Except.ok "\x7b\"token\": \"EVIL\", \"count\": 999\x7d")
        "q" "T" "K" (JValue.bool true) (JValue.bool false) (JValue.bool true)
        (JValue.num 200)
      = Except.ok (JValue.obj out) ∧
      lookup out "token" = some (JValue.str "T") ∧
      lookup out "include_fulltext" = some (JValue.bool true) ∧
      lookup out "include_all_sentences" = some (JValue.bool false) ∧
      lookup out "include_match_sentences" = some (JValue.bool true) ∧
      lookup out "count" = some (JValue.num 200) :=
  overlay_fields_equal_arguments _ "q" "T" "K"
    "\x7b\"token\": \"EVIL\", \"count\": 999\x7d"
    [("token", JValue.str "EVIL"), ("count", JValue.num 999)]
    (JValue.bool true) (JValue.bool false) (JValue.bool true) (JValue.num 200)
    rfl rfl

/-- C2: every key of the model object other than the five overlay keys
appears in the returned envelope unmodified; in particular the `query`
sub-object passes through deep-equal (structurally identical). -/
theorem non_overlay_fields_pass_through
    (endpoint : String → ChatRequest → Except PyError String)
    (uq tp oa s : String) (kvs : List (String × JValue)) (f a m c : JValue)
    (hep : endpoint oa (mkChatRequest uq) = Except.ok s)
    (hp : json_loads s = some (JValue.obj kvs)) :
    ∃ out, make_json_query endpoint uq tp oa f a m c = Except.ok (JValue.obj out) ∧
      (∀ key, key ∉ overlayKeys → lookup out key = lookup kvs key) ∧
      lookup out "query" = lookup kvs "query" := by
  refine ⟨overlayFields kvs (JValue.str tp) f a m c, ?_, ?_, ?_⟩
  · simp [make_json_query, hep, hp]
  · intro key hk
    exact lookup_overlay_other kvs _ f a m c key hk
  · exact lookup_overlay_other kvs _ f a m c "query" (by decide)

/-- C2 witness: a model object with a `query` sub-object and an extra
`since_num` key; both pass through unmodified. -/
theorem non_overlay_fields_pass_through_witness :
    ∃ out, make_json_query
        (fun _ _ => Except.ok
          "\x7b\"query\": \x7b\"keywords\": \"maize\"\x7d, \"since_num\": 5\x7d")
        "q" "T" "K" (JValue.bool false) (JValue.bool false) (JValue.bool false)
        (JValue.num 10)
      = Except.ok (JValue.obj out) ∧
      (∀ key, key ∉ overlayKeys →
        lookup out key =
          lookup [("query", JValue.obj [("keywords", JValue.str "maize")]),
                       ("since_num", JValue.num 5)] key) ∧
      lookup out "query" =
        lookup [("query", JValue.obj [("keywords", JValue.str "maize")]),
                     ("since_num", JValue.num 5)] "query" :=
  non_overlay_fields_pass_through _ "q" "T" "K"
    "\x7b\"query\": \x7b\"keywords\": \"maize\"\x7d, \"since_num\": 5\x7d"
    [("query", JValue.obj [("keywords", JValue.str "maize")]),
     ("since_num", JValue.num 5)]
    (JValue.bool false) (JValue.bool false) (JValue.bool false) (JValue.num 10)
    rfl rfl

/-- C3: nothing is caught inside the core: a model-call failure
propagates as the same error, and a response that is not valid JSON
makes the invocation fail with the parse error; in both cases no
envelope (partial or otherwise) is returned. -/
theorem failures_propagate
    (endpoint : String → ChatRequest → Except PyError String)
    (uq tp oa : String) (f a m c : JValue) :
    (∀ e, endpoint oa (mkChatRequest uq) = Except.error e →
      make_json_query endpoint uq tp oa f a m c = Except.error e) ∧
    (∀ s, endpoint oa (mkChatRequest uq) = Except.ok s → json_loads s = none →
      make_json_query endpoint uq tp oa f a m c
        = Except.error PyError.jsonDecodeError) := by
  constructor
  · intro e he
    simp [make_json_query, he]
  · intro s hs hp
    simp [make_json_query, hs, hp]

/-- C3 witness: a transport failure and a non-JSON response, each at a
concrete input. -/
theorem failures_propagate_witness :
    make_json_query (fun _ _ => Except.error PyError.clientError) "q" "T" "K"
        (JValue.bool false) (JValue.bool false) (JValue.bool false) (JValue.num 10)
      = Except.error PyError.clientError ∧
    make_json_query (fun _ _ => Except.ok "this is not JSON") "q" "T" "K"
        (JValue.bool false) (JValue.bool false) (JValue.bool false) (JValue.num 10)
      = Except.error PyError.jsonDecodeError :=
  ⟨(failures_propagate (fun _ _ => Except.error PyError.clientError) "q" "T" "K"
      (JValue.bool false) (JValue.bool false) (JValue.bool false)
      (JValue.num 10)).1 PyError.clientError rfl,
   (failures_propagate (fun _ _ => Except.ok "this is not JSON") "q" "T" "K"
      (JValue.bool false) (JValue.bool false) (JValue.bool false)
      (JValue.num 10)).2 "this is not JSON" rfl rfl⟩

/-- C4: a response that is valid JSON but denotes an array or a scalar
makes the invocation fail (the first item assignment raises `TypeError`)
and no envelope is returned. -/
theorem non_object_response_fails
    (endpoint : String → ChatRequest → Except PyError String)
    (uq tp oa s : String) (v : JValue) (f a m c : JValue)
    (hep : endpoint oa (mkChatRequest uq) = Except.ok s)
    (hp : json_loads s = some v) (hv : v.isObj = false) :
    make_json_query endpoint uq tp oa f a m c
      = Except.error PyError.typeErrorItemAssignment := by
  cases v <;> simp_all [make_json_query, JValue.isObj]

/-- C4 witness: a JSON array response. -/
theorem non_object_response_fails_witness :
    make_json_query (fun _ _ => Except.ok "[1, 2]") "q" "T" "K"
        (JValue.bool false) (JValue.bool false) (JValue.bool false) (JValue.num 10)
      = Except.error PyError.typeErrorItemAssignment :=
  non_object_response_fails _ "q" "T" "K" "[1, 2]"
    (JValue.arr [JValue.num 1, JValue.num 2])
    (JValue.bool false) (JValue.bool false) (JValue.bool false) (JValue.num 10)
    rfl rfl rfl

/-- C5: the "Generate JSON" button handler calls `make_json_query` with
only four positional arguments, so the numeric count widget value is
bound to the `include_fulltext` parameter: whenever the handler runs the
core and the model response parses to an object, the envelope has
`include_fulltext` equal to the numeric count, `count` equal to the
default 10, the other two flags equal to their defaults, and the three
checkbox values are never forwarded (the result does not depend on
them). -/
theorem ui_count_bound_to_include_fulltext
    (endpoint : String → ChatRequest → Except PyError String)
    (uq tp oa : String) (cb1 cb2 cb3 cb1x cb2x cb3x : Bool) (count : Int)
    (s : String) (kvs : List (String × JValue))
    (hq : pyStrip uq ≠ "") (ho : pyStrip oa ≠ "")
    (hep : endpoint oa (mkChatRequest uq) = Except.ok s)
    (hp : json_loads s = some (JValue.obj kvs)) :
    ∃ out, generate_json_handler endpoint uq tp oa cb1 cb2 cb3 count
        = some (Except.ok (JValue.obj out)) ∧
      lookup out "include_fulltext" = some (JValue.num count) ∧
      lookup out "include_all_sentences" = some (JValue.bool false) ∧
      lookup out "include_match_sentences" = some (JValue.bool false) ∧
      lookup out "count" = some (JValue.num 10) ∧
      generate_json_handler endpoint uq tp oa cb1 cb2 cb3 count
        = generate_json_handler endpoint uq tp oa cb1x cb2x cb3x count := by
  refine ⟨overlayFields kvs (JValue.str tp) (JValue.num count)
      (JValue.bool false) (JValue.bool false) (JValue.num 10), ?_,
    lookup_overlay_fulltext kvs _ _ _ _ _,
    lookup_overlay_all_sentences kvs _ _ _ _ _,
    lookup_overlay_match_sentences kvs _ _ _ _ _,
    lookup_overlay_count kvs _ _ _ _ _, rfl⟩
  simp [generate_json_handler, hq, ho, make_json_query, hep, hp]

/-- C5 witness: count 7 from the number widget lands in
`include_fulltext`; the envelope count is 10. -/
theorem ui_count_bound_to_include_fulltext_witness :
    ∃ out, generate_json_handler (fun _ _ => Except.ok "\x7b\x7d")
        "maize plant height" "T" "K" true true true 7
        = some (Except.ok (JValue.obj out)) ∧
      lookup out "include_fulltext" = some (JValue.num 7) ∧
      lookup out "include_all_sentences" = some (JValue.bool false) ∧
      lookup out "include_match_sentences" = some (JValue.bool false) ∧
      lookup out "count" = some (JValue.num 10) ∧
      generate_json_handler (fun _ _ => Except.ok "\x7b\x7d")
        "maize plant height" "T" "K" true true true 7
        = generate_json_handler (fun _ _ => Except.ok "\x7b\x7d")
        "maize plant height" "T" "K" false false false 7 :=
  ui_count_bound_to_include_fulltext _ "maize plant height" "T" "K"
    true true true false false false 7 "\x7b\x7d" []
    (by decide) (by decide) rfl rfl

/-- C6: the reformatter is deterministic in its inputs and the model
response text: two invocations with identical arguments whose endpoints
return the same content produce identical envelopes. -/
theorem reformatter_deterministic
    (ep1 ep2 : String → ChatRequest → Except PyError String)
    (uq tp oa s : String) (f a m c : JValue)
    (h1 : ep1 oa (mkChatRequest uq) = Except.ok s)
    (h2 : ep2 oa (mkChatRequest uq) = Except.ok s) :
    make_json_query ep1 uq tp oa f a m c = make_json_query ep2 uq tp oa f a m c := by
  unfold make_json_query
  rw [h1, h2]

/-- C6 witness: two distinct endpoint functions with the same response
text give the same envelope. -/
theorem reformatter_deterministic_witness :
    make_json_query (fun _ _ => Except.ok "\x7b\x7d") "q" "T" "K"
        (JValue.bool false) (JValue.bool false) (JValue.bool false) (JValue.num 10)
      = make_json_query (fun _ req => Except.ok (if req.temperature = 0 then "\x7b\x7d" else "\x7b\x7d"))
        "q" "T" "K"
        (JValue.bool false) (JValue.bool false) (JValue.bool false) (JValue.num 10) :=
  reformatter_deterministic _ _ "q" "T" "K" "\x7b\x7d"
    (JValue.bool false) (JValue.bool false) (JValue.bool false) (JValue.num 10)
    rfl rfl

/-- C7: the instruction block sent to the model is a fixed constant:
for any two invocations, the request built by `make_json_query` carries
the same system message (the literal `system_prompt`), and the model
name, temperature and response format do not depend on the input
either. -/
theorem instruction_block_constant (uq1 uq2 : String) :
    (mkChatRequest uq1).messages.head? = some (Message.mk "system" system_prompt) ∧
    (mkChatRequest uq1).messages.head? = (mkChatRequest uq2).messages.head? ∧
    (mkChatRequest uq1).model = (mkChatRequest uq2).model ∧
    (mkChatRequest uq1).temperature = (mkChatRequest uq2).temperature ∧
    (mkChatRequest uq1).response_format = (mkChatRequest uq2).response_format :=
  ⟨rfl, rfl, rfl, rfl, rfl⟩

/-- C8: no local clamping or bounds check on `count`: for every integer,
also outside [1, 200], the envelope's `count` equals the supplied
value. -/
theorem count_not_clamped
    (endpoint : String → ChatRequest → Except PyError String)
    (uq tp oa s : String) (kvs : List (String × JValue)) (f a m : JValue) (c : Int)
    (hep : endpoint oa (mkChatRequest uq) = Except.ok s)
    (hp : json_loads s = some (JValue.obj kvs)) :
    ∃ out, make_json_query endpoint uq tp oa f a m (JValue.num c)
        = Except.ok (JValue.obj out) ∧
      lookup out "count" = some (JValue.num c) := by
  refine ⟨overlayFields kvs (JValue.str tp) f a m (JValue.num c), ?_,
    lookup_overlay_count kvs _ f a m _⟩
  simp [make_json_query, hep, hp]

/-- C8 witness: counts 100000 and -5, both far outside [1, 200], are
passed through verbatim. -/
theorem count_not_clamped_witness :
    (∃ out, make_json_query (fun _ _ => Except.ok "\x7b\x7d") "q" "T" "K"
        (JValue.bool false) (JValue.bool false) (JValue.bool false)
        (JValue.num 100000)
        = Except.ok (JValue.obj out) ∧
      lookup out "count" = some (JValue.num 100000)) ∧
    (∃ out, make_json_query (fun _ _ => Except.ok "\x7b\x7d") "q" "T" "K"
        (JValue.bool false) (JValue.bool false) (JValue.bool false)
        (JValue.num (-5))
        = Except.ok (JValue.obj out) ∧
      lookup out "count" = some (JValue.num (-5))) :=
  ⟨count_not_clamped _ "q" "T" "K" "\x7b\x7d" []
      (JValue.bool false) (JValue.bool false) (JValue.bool false) 100000 rfl rfl,
   count_not_clamped _ "q" "T" "K" "\x7b\x7d" []
      (JValue.bool false) (JValue.bool false) (JValue.bool false) (-5) rfl rfl⟩

/-- C9: omitting the optional parameters is the same call as passing the
declared defaults `false`, `false`, `false`, `10` explicitly. -/
theorem omitted_parameters_use_defaults
    (endpoint : String → ChatRequest → Except PyError String)
    (uq tp oa : String) :
    make_json_query endpoint uq tp oa =
      make_json_query endpoint uq tp oa (JValue.bool false) (JValue.bool false)
        (JValue.bool false) (JValue.num 10) := rfl

/-- The mocked model response of the spec scenario. -/
def scenarioResponse : String :=
  "\x7b\"query\": \x7b\"keywords\": \"maize AND (plant height)\"\x7d\x7d"

/-- The envelope the code returns in the spec scenario, in the insertion
order the code produces. -/
def scenarioEnvelope : List (String × JValue) :=
  [("query", JValue.obj [("keywords", JValue.str "maize AND (plant height)")]),
   ("token", JValue.str "T"),
   ("include_fulltext", JValue.bool false),
   ("include_all_sentences", JValue.bool false),
   ("include_match_sentences", JValue.bool false),
   ("count", JValue.num 10)]

/-- The expected output as listed in the spec scenario (its key order).
A JSON object is unordered, and Python dict equality ignores insertion
order, so the comparison sorts the keys. -/
def scenarioSpecListing : List (String × JValue) :=
  [("token", JValue.str "T"),
   ("query", JValue.obj [("keywords", JValue.str "maize AND (plant height)")]),
   ("include_fulltext", JValue.bool false),
   ("include_all_sentences", JValue.bool false),
   ("include_match_sentences", JValue.bool false),
   ("count", JValue.num 10)]

/-- C10: the concrete scenario: mocked response
`\x7b"query": \x7b"keywords": "maize AND (plant height)"\x7d\x7d`, token "T", all
includes false, count 10, returns exactly the expected envelope (equal
to the spec listing as a dict, i.e. up to key order), and `since_num`
is absent. -/
theorem scenario_maize_plant_height :
    make_json_query (fun _ _ => Except.ok scenarioResponse)
        "maize plant height" "T" "K"
      = Except.ok (JValue.obj scenarioEnvelope) ∧
    sortKVs scenarioEnvelope = sortKVs scenarioSpecListing ∧
    lookup scenarioEnvelope "since_num" = none :=
  ⟨rfl, rfl, rfl⟩
